import Mathlib

/-!
Shallow embedding of the statistical test engine of the repository
Simple-Py-Statistical-Testing (src/tests and src/utils).

Python floats are modelled as rationals.  Library routines from
numpy/scipy that the source calls are split in two groups: elementary
aggregates with standard exact semantics (mean, variance, median,
Python int truncation) are modelled directly, while transcendental and
distributional routines (square roots, CDFs, quantiles, and the
Levene/Wilcoxon/Spearman statistics of scipy.stats) are abstracted as an
explicit `SciPy` record of function parameters over which every theorem
quantifies.  Console interaction, namely the stdin prompts consumed by
input(), the warning lines passed to print_assumption_warnings, and the
mutated print_test_results.__name__ attribute, is modelled by an explicit
`Console` state threaded through each test; the warning channel records
exactly the strings handed to print_assumption_warnings (the purely
decorative data summaries and result tables are not modelled).  A raised
ValueError is modelled as the .error case of Except; a returned Python
dict is an insertion-ordered association list.
-/

/-- Values stored in a Result Record (the Python dict values). -/
inductive RVal : Type where
  | num : ℚ → RVal
  | str : String → RVal
  | bool : Bool → RVal
  | pair : ℚ → ℚ → RVal
  | numList : List ℚ → RVal
  | interp : Bool → ℚ → RVal
  deriving DecidableEq, Repr

/-- A Result Record: insertion-ordered key/value mapping (Python dict). -/
abbrev RRec := List (String × RVal)

/-- Lookup of a key in a Result Record (first match wins, as in a dict). -/
def RRec.find (r : RRec) (key : String) : Option RVal :=
  match r with
  | [] => none
  | (k, v) :: rest => if k = key then some v else RRec.find rest key

/-- Record of a non-raising run; an empty record stands for a raised
ValueError, which carries no record at all. -/
def unwrapRec : Except String RRec → RRec
  | .ok r => r
  | .error _ => []

/-- Model of the interpretation string built by every test, namely
Reject when p_value < alpha and Fail to reject otherwise, together with
the displayed significance level. -/
def mkInterpretation (p_value alpha : ℚ) : RVal :=
  .interp (decide (p_value < alpha)) alpha

/-- numpy mean, exact rational semantics. -/
def npMean (l : List ℚ) : ℚ := l.sum / (l.length : ℚ)

/-- numpy var with ddof=1 (sample variance), exact rational semantics. -/
def npVar1 (l : List ℚ) : ℚ :=
  (l.map (fun x => (x - npMean l) ^ 2)).sum / ((l.length : ℚ) - 1)

/-- numpy var with ddof=0 (population variance), used by the normality
heuristic through np.std. -/
def npVar0 (l : List ℚ) : ℚ :=
  (l.map (fun x => (x - npMean l) ^ 2)).sum / (l.length : ℚ)

/-- Insertion into a sorted list of rationals. -/
def insertQ (x : ℚ) : List ℚ → List ℚ
  | [] => [x]
  | y :: ys => if x ≤ y then x :: y :: ys else y :: insertQ x ys

/-- Insertion sort of rationals. -/
def sortQ (l : List ℚ) : List ℚ := l.foldr insertQ []

/-- numpy median: middle element of the sorted data, or the average of
the two middle elements for even length (0 for empty input). -/
def npMedian (l : List ℚ) : ℚ :=
  let s := sortQ l
  let n := s.length
  if n = 0 then 0
  else if n % 2 = 1 then s.getD (n / 2) 0
  else (s.getD (n / 2 - 1) 0 + s.getD (n / 2) 0) / 2

/-- Python int() applied to a float: truncation toward zero. -/
def pyInt (x : ℚ) : ℤ := Int.tdiv x.num (x.den : ℤ)

/-- Console/process state threaded through the tests: the numeric stdin
tokens consumed by input() prompts for numbers, the string stdin tokens
consumed by the hypothesis prompts, the mutable display name assigned to
print_test_results.__name__, and the warning lines printed so far. -/
structure Console where
  numStdin : List ℚ
  strStdin : List String
  printName : String
  warningsOut : List String
  deriving DecidableEq, Repr

/-- Read one numeric token; the retry loop of the source consumes tokens
until one parses, so stdin is modelled as already-parsed numbers, and an
exhausted stream yields the default 0 of the prompt. -/
def popNum (st : Console) : ℚ × Console :=
  match st.numStdin with
  | [] => (0, st)
  | q :: rest => (q, { st with numStdin := rest })

/-- Read one string token; an exhausted stream yields the empty string. -/
def popStr (st : Console) : String × Console :=
  match st.strStdin with
  | [] => ("", st)
  | s :: rest => (s, { st with strStdin := rest })

/-- get_hypothesis_input from src/utils/validators.py: reads the null and
alternative hypothesis from the console, substituting the documented
defaults for blank answers. -/
def get_hypothesis_input (st : Console) : (String × String) × Console :=
  let r1 := popStr st
  let r2 := popStr r1.2
  let null_hyp := if r1.1 = "" then "No significant difference/effect" else r1.1
  let alt_hyp := if r2.1 = "" then "Significant difference/effect exists" else r2.1
  ((null_hyp, alt_hyp), r2.2)

/-- print_assumption_warnings from src/utils/formatters.py, modelled as
appending the warning lines to the console warning channel. -/
def print_assumption_warnings (st : Console) (warnings : List String) : Console :=
  { st with warningsOut := st.warningsOut ++ warnings }

/-- Abstract interface to the scipy.stats and numpy routines that the
source calls as black boxes; each field stands for the library function
of the same name and every theorem quantifies over this record.  The
calls the source wraps in try/except ValueError are of Except type. -/
structure SciPy where
  ttest_1samp : List ℚ → ℚ → ℚ × ℚ
  ttest_rel : List ℚ → List ℚ → ℚ × ℚ
  ttest_ind : List ℚ → List ℚ → Bool → ℚ × ℚ
  levene : List ℚ → List ℚ → ℚ × ℚ
  t_ppf : ℚ → ℚ → ℚ
  f_cdf : ℚ → ℚ → ℚ → ℚ
  f_ppf : ℚ → ℚ → ℚ → ℚ
  chi2_sf : ℚ → ℚ → ℚ
  norm_ppf : ℚ → ℚ
  wilcoxon : List ℚ → Except String (ℚ × ℚ)
  spearmanr : List ℚ → List ℚ → Except String (ℚ × ℚ)
  sqrt : ℚ → ℚ
  log : ℚ → ℚ
  exp : ℚ → ℚ

/-- Modelled from the spec: the chi-square Core Math Primitive that the
source takes from scipy.stats.chisquare, a routine not under src/.
Spec section 4.4 gives its statistic, the sum over cells of (O-E)^2/E,
with the p-value from the chi-square distribution on k-1 degrees of
freedom; the distribution tail itself stays abstract as `chi2_sf`.
The library rejects observed/expected lists whose totals disagree with a
ValueError, modelled here with an exact comparison. -/
def scipy_chisquare (chi2_sf : ℚ → ℚ → ℚ) (f_obs f_exp : List ℚ) :
    Except String (ℚ × ℚ) :=
  if f_obs.sum ≠ f_exp.sum then
    .error "observed and expected sums differ"
  else
    let statistic := ((f_obs.zip f_exp).map (fun c => (c.1 - c.2) ^ 2 / c.2)).sum
    .ok (statistic, chi2_sf statistic ((f_obs.length : ℚ) - 1))

/-- validate_minimum_sample_size from src/utils/validators.py. -/
def validate_minimum_sample_size (data : List ℚ) (min_size : ℕ) : Bool :=
  decide (data.length ≥ min_size)

/-- validate_equal_sample_sizes from src/utils/validators.py. -/
def validate_equal_sample_sizes (data1 data2 : List ℚ) : Bool :=
  decide (data1.length = data2.length)

/-- validate_normality_assumption from src/utils/validators.py: flags a
small sample, and otherwise flags more than 5 percent of the points
lying beyond 3 population standard deviations from the mean. -/
def validate_normality_assumption (P : SciPy) (data : List ℚ)
    (min_size : ℕ := 30) : Bool × String :=
  let n := data.length
  if n < min_size then
    (false, s!"Sample size ({n}) is small. Consider normality testing.")
  else
    let mean := npMean data
    let std := P.sqrt (npVar0 data)
    let outliers := data.filter (fun x => decide (|x - mean| > 3 * std))
    if n > 1 ∧ (outliers.length : ℚ) > (n : ℚ) * (5 / 100) then
      (false, s!"Dataset has {outliers.length} potential outliers. Check normality.")
    else
      (true, "Sample size adequate for normality assumption.")

/-- validate_categorical_data from src/utils/validators.py: non-empty and
every value still non-negative after Python int truncation. -/
def validate_categorical_data (data : List ℚ) : Bool :=
  !data.isEmpty && data.all (fun x => decide (0 ≤ pyInt x))

/-- validate_correlation_data from src/utils/validators.py. -/
def validate_correlation_data (x_data y_data : List ℚ) : Bool × Option String :=
  if x_data.length ≠ y_data.length then
    (false, some "X and Y datasets must have equal length")
  else if x_data.length < 3 then
    (false, some "Need at least 3 data points for correlation")
  else if x_data.dedup.length = 1 then
    (false, some "X variable is constant (no variation)")
  else if y_data.dedup.length = 1 then
    (false, some "Y variable is constant (no variation)")
  else (true, none)

/-- ParametricTests.students_t_test (src/tests/parametric_tests.py,
lines 16-89): the one-sample t-test.  When population_mean is 0.0 the
hypothesized mean is read interactively from the console; the function
mutates print_test_results.__name__ and consumes the hypothesis prompts.
This function raises no ValueError, so the first component is always the
returned record. -/
def students_t_test (P : SciPy) (data : List ℚ) (population_mean : ℚ)
    (alpha : ℚ) (st : Console) : Except String RRec × Console :=
  let st := { st with printName := "One-Sample Student\x27s t-test" }
  let pm := if population_mean = 0 then popNum st else (population_mean, st)
  let population_mean := pm.1
  let hyp := get_hypothesis_input pm.2
  let st := hyp.2
  let warnings : List String :=
    if !validate_minimum_sample_size data 5 then
      ["Very small sample size. Results may be unreliable."]
    else []
  let norm := validate_normality_assumption P data
  let warnings := if !norm.1 then warnings ++ [norm.2] else warnings
  let st := print_assumption_warnings st warnings
  let tp := P.ttest_1samp data population_mean
  let n : ℚ := data.length
  let sample_mean := npMean data
  let sample_std := P.sqrt (npVar1 data)
  let se := sample_std / P.sqrt n
  let cohens_d := (sample_mean - population_mean) / sample_std
  let df := n - 1
  let t_critical := P.t_ppf (1 - alpha / 2) df
  let ci_lower := sample_mean - t_critical * se
  let ci_upper := sample_mean + t_critical * se
  let results : RRec :=
    [("test_name", .str "One-Sample Student\x27s t-test"),
     ("statistic", .num tp.1),
     ("p_value", .num tp.2),
     ("degrees_of_freedom", .num df),
     ("sample_mean", .num sample_mean),
     ("hypothesized_mean", .num population_mean),
     ("effect_size", .num cohens_d),
     ("confidence_interval", .pair ci_lower ci_upper),
     ("interpretation", mkInterpretation tp.2 alpha)]
  (.ok results, st)

/-- ParametricTests.paired_t_test (src/tests/parametric_tests.py,
lines 91-163): raises ValueError on unequal sample sizes before any
other step; otherwise reduces to the t-test on the differences. -/
def paired_t_test (P : SciPy) (data1 data2 : List ℚ) (alpha : ℚ)
    (st : Console) : Except String RRec × Console :=
  let st := { st with printName := "Paired Samples t-test" }
  if !validate_equal_sample_sizes data1 data2 then
    (.error "Paired t-test requires equal sample sizes", st)
  else
    let hyp := get_hypothesis_input st
    let st := hyp.2
    let differences := (data1.zip data2).map (fun p => p.2 - p.1)
    let warnings : List String :=
      if !validate_minimum_sample_size differences 5 then
        ["Very small sample size. Results may be unreliable."]
      else []
    let norm := validate_normality_assumption P differences
    let warnings := if !norm.1 then warnings ++ [norm.2] else warnings
    let st := print_assumption_warnings st warnings
    let tp := P.ttest_rel data1 data2
    let n : ℚ := differences.length
    let mean_diff := npMean differences
    let std_diff := P.sqrt (npVar1 differences)
    let se_diff := std_diff / P.sqrt n
    let cohens_d := mean_diff / std_diff
    let df := n - 1
    let t_critical := P.t_ppf (1 - alpha / 2) df
    let results : RRec :=
      [("test_name", .str "Paired Samples t-test"),
       ("statistic", .num tp.1),
       ("p_value", .num tp.2),
       ("degrees_of_freedom", .num df),
       ("mean_difference", .num mean_diff),
       ("effect_size", .num cohens_d),
       ("confidence_interval",
         .pair (mean_diff - t_critical * se_diff) (mean_diff + t_critical * se_diff)),
       ("interpretation", mkInterpretation tp.2 alpha)]
    (.ok results, st)

/-- ParametricTests.independent_t_test (src/tests/parametric_tests.py,
lines 165-267): the Levene p-value drives the automatic selection of the
pooled (Student) or Welch branch; the caller-supplied equal_var flag
(default True) survives only when the Levene p-value exceeds 0.05. -/
def independent_t_test (P : SciPy) (data1 data2 : List ℚ) (alpha : ℚ)
    (equal_var : Bool) (st : Console) : Except String RRec × Console :=
  let hyp := get_hypothesis_input st
  let st := hyp.2
  let warnings : List String :=
    if !validate_minimum_sample_size data1 5 || !validate_minimum_sample_size data2 5 then
      ["Small sample sizes. Results may be unreliable."]
    else []
  let norm1 := validate_normality_assumption P data1
  let norm2 := validate_normality_assumption P data2
  let warnings := if !norm1.1 then warnings ++ ["Sample 1: " ++ norm1.2] else warnings
  let warnings := if !norm2.1 then warnings ++ ["Sample 2: " ++ norm2.2] else warnings
  let levene_p := (P.levene data1 data2).2
  let auto_equal_var := decide (levene_p > 5 / 100)
  let warnings :=
    if !auto_equal_var then
      warnings ++ ["Unequal variances detected. Using Welch\x27s t-test."]
    else warnings
  let equal_var := if auto_equal_var then equal_var else false
  let st := print_assumption_warnings st warnings
  let tp := P.ttest_ind data1 data2 equal_var
  let n1 : ℚ := data1.length
  let n2 : ℚ := data2.length
  let mean1 := npMean data1
  let mean2 := npMean data2
  let std1 := P.sqrt (npVar1 data1)
  let std2 := P.sqrt (npVar1 data2)
  let branch : ℚ × ℚ × Option ℚ :=
    if equal_var then
      let pooled_std := P.sqrt (((n1 - 1) * std1 ^ 2 + (n2 - 1) * std2 ^ 2) / (n1 + n2 - 2))
      (pooled_std * P.sqrt (1 / n1 + 1 / n2), n1 + n2 - 2, some pooled_std)
    else
      let se1 := std1 / P.sqrt n1
      let se2 := std2 / P.sqrt n2
      (P.sqrt (se1 ^ 2 + se2 ^ 2),
       (se1 ^ 2 + se2 ^ 2) ^ 2 / (se1 ^ 4 / (n1 - 1) + se2 ^ 4 / (n2 - 1)),
       none)
  let se_diff := branch.1
  let df := branch.2.1
  let pooled_std := branch.2.2
  let cohens_d :=
    match pooled_std with
    | some p0 =>
        if equal_var && decide (p0 > 0) then (mean1 - mean2) / p0
        else if decide (std1 > 0) && decide (std2 > 0) then
          (mean1 - mean2) / P.sqrt ((std1 ^ 2 + std2 ^ 2) / 2)
        else 0
    | none =>
        if decide (std1 > 0) && decide (std2 > 0) then
          (mean1 - mean2) / P.sqrt ((std1 ^ 2 + std2 ^ 2) / 2)
        else 0
  let t_critical := P.t_ppf (1 - alpha / 2) df
  let mean_diff := mean1 - mean2
  let results : RRec :=
    [("test_name", .str "Independent Samples t-test"),
     ("statistic", .num tp.1),
     ("p_value", .num tp.2),
     ("degrees_of_freedom", .num df),
     ("mean_1", .num mean1),
     ("mean_2", .num mean2),
     ("mean_difference", .num mean_diff),
     ("effect_size", .num cohens_d),
     ("equal_variances_assumed", .bool equal_var),
     ("confidence_interval",
       .pair (mean_diff - t_critical * se_diff) (mean_diff + t_critical * se_diff)),
     ("interpretation", mkInterpretation tp.2 alpha)]
  let results :=
    match pooled_std with
    | some p0 => results ++ [("pooled_std", .num p0)]
    | none => results
  (.ok results, st)

/-- ParametricTests.f_test (src/tests/parametric_tests.py,
lines 269-349): the variance ratio test with the larger sample variance
in the numerator. -/
def f_test (P : SciPy) (data1 data2 : List ℚ) (alpha : ℚ) (st : Console) :
    Except String RRec × Console :=
  let st := { st with printName := "F-test for Equality of Variances" }
  let hyp := get_hypothesis_input st
  let st := hyp.2
  let warnings : List String :=
    if !validate_minimum_sample_size data1 3 || !validate_minimum_sample_size data2 3 then
      ["Very small sample sizes. Results may be unreliable."]
    else []
  let norm1 := validate_normality_assumption P data1
  let norm2 := validate_normality_assumption P data2
  let warnings := if !norm1.1 then warnings ++ ["Sample 1: " ++ norm1.2] else warnings
  let warnings := if !norm2.1 then warnings ++ ["Sample 2: " ++ norm2.2] else warnings
  let st := print_assumption_warnings st warnings
  let var1 := npVar1 data1
  let var2 := npVar1 data2
  let fd : ℚ × ℚ × ℚ :=
    if var1 ≥ var2 then
      (var1 / var2, (data1.length : ℚ) - 1, (data2.length : ℚ) - 1)
    else
      (var2 / var1, (data2.length : ℚ) - 1, (data1.length : ℚ) - 1)
  let f_statistic := fd.1
  let df1 := fd.2.1
  let df2 := fd.2.2
  let p_value := 2 * (1 - P.f_cdf f_statistic df1 df2)
  let f_lower := P.f_ppf (alpha / 2) df1 df2
  let f_upper := P.f_ppf (1 - alpha / 2) df1 df2
  let ci : ℚ × ℚ :=
    if var1 ≥ var2 then ((var1 / var2) / f_upper, (var1 / var2) / f_lower)
    else ((var2 / var1) / f_upper, (var2 / var1) / f_lower)
  let results : RRec :=
    [("test_name", .str "F-test for Equality of Variances"),
     ("f_statistic", .num f_statistic),
     ("p_value", .num p_value),
     ("df1", .num df1),
     ("df2", .num df2),
     ("variance_1", .num var1),
     ("variance_2", .num var2),
     ("variance_ratio", .num (if var1 ≥ var2 then var1 / var2 else var2 / var1)),
     ("confidence_interval", .pair ci.1 ci.2),
     ("interpretation", mkInterpretation p_value alpha)]
  (.ok results, st)

/-- The list comprehension dropping zero differences that both Wilcoxon
entry points apply before ranking. -/
def nonZeroDiffs (differences : List ℚ) : List ℚ :=
  differences.filter (fun d => decide (d ≠ 0))

/-- Shared tail of NonParametricTests.wilcoxon_signed_rank_test
(src/tests/nonparametric_tests.py, lines 55-122) once the test name and
the differences are fixed: zero differences are removed before the rank
statistic is computed, an all-zero difference list yields an error
record, and the effect size is attached only when more than 10 non-zero
differences remain. -/
def wilcoxonCommon (P : SciPy) (test_name : String) (differences : List ℚ)
    (alpha : ℚ) (st : Console) : Except String RRec × Console :=
  let hyp := get_hypothesis_input st
  let st := hyp.2
  let warnings : List String :=
    if !validate_minimum_sample_size differences 6 then
      ["Small sample size. Consider exact p-values."]
    else []
  let non_zero_diffs := nonZeroDiffs differences
  let warnings :=
    if non_zero_diffs.length < differences.length then
      warnings ++ [s!"Removed {differences.length - non_zero_diffs.length} zero differences."]
    else warnings
  let warnings :=
    if non_zero_diffs.length = 0 then
      warnings ++ ["All differences are zero. Cannot perform test."]
    else warnings
  let st := print_assumption_warnings st warnings
  if non_zero_diffs.length = 0 then
    (.ok [("test_name", .str test_name),
          ("error", .str "Cannot perform test - all differences are zero")], st)
  else
    match P.wilcoxon non_zero_diffs with
    | .error e =>
        (.ok [("test_name", .str test_name),
              ("error", .str ("Test failed: " ++ e))], st)
    | .ok wp =>
        let statistic := wp.1
        let p_value := wp.2
        let n : ℚ := non_zero_diffs.length
        let median_diff := npMedian differences
        let effect_size : Option ℚ :=
          if non_zero_diffs.length > 10 then
            some (|(statistic - n * (n + 1) / 4) /
                    P.sqrt (n * (n + 1) * (2 * n + 1) / 24)| / P.sqrt n)
          else none
        let results : RRec :=
          [("test_name", .str test_name),
           ("statistic", .num statistic),
           ("p_value", .num p_value),
           ("n_pairs", .num n),
           ("median_difference", .num median_diff),
           ("interpretation", mkInterpretation p_value alpha)]
        let results :=
          match effect_size with
          | some e => results ++ [("effect_size", .num e)]
          | none => results
        (.ok results, st)

/-- NonParametricTests.wilcoxon_signed_rank_test
(src/tests/nonparametric_tests.py, lines 16-122).  In one-sample mode
(data2 = none) the hypothesized median is read from the console before
the differences are formed; in paired mode unequal sample sizes raise a
ValueError before anything else. -/
def wilcoxon_signed_rank_test (P : SciPy) (data1 : List ℚ)
    (data2 : Option (List ℚ)) (alpha : ℚ) (st : Console) :
    Except String RRec × Console :=
  match data2 with
  | none =>
      let pm := popNum st
      wilcoxonCommon P "One-Sample Wilcoxon Signed-Rank Test"
        (data1.map (fun x => x - pm.1)) alpha pm.2
  | some d2 =>
      if !validate_equal_sample_sizes data1 d2 then
        (.error "Paired test requires equal sample sizes", st)
      else
        wilcoxonCommon P "Paired-Sample Wilcoxon Signed-Rank Test"
          ((data1.zip d2).map (fun p => p.2 - p.1)) alpha st

/-- NonParametricTests.one_sample_wilcoxon_test
(src/tests/nonparametric_tests.py, lines 124-208): the explicit
one-sample variant with the hypothesized median as an argument. -/
def one_sample_wilcoxon_test (P : SciPy) (data : List ℚ)
    (hypothesized_median : ℚ) (alpha : ℚ) (st : Console) :
    Except String RRec × Console :=
  let hyp := get_hypothesis_input st
  let st := hyp.2
  let differences := data.map (fun x => x - hypothesized_median)
  let warnings : List String :=
    if !validate_minimum_sample_size differences 6 then
      ["Small sample size. Consider exact p-values."]
    else []
  let non_zero_diffs := nonZeroDiffs differences
  let warnings :=
    if non_zero_diffs.length < differences.length then
      warnings ++ [s!"Removed {differences.length - non_zero_diffs.length} zero differences."]
    else warnings
  let warnings :=
    if non_zero_diffs.length = 0 then
      warnings ++ ["All differences are zero. Cannot perform test."]
    else warnings
  let st := print_assumption_warnings st warnings
  if non_zero_diffs.length = 0 then
    (.ok [("test_name", .str "One-Sample Wilcoxon Signed-Rank Test"),
          ("error", .str "Cannot perform test - all differences are zero")], st)
  else
    match P.wilcoxon non_zero_diffs with
    | .error e =>
        (.ok [("test_name", .str "One-Sample Wilcoxon Signed-Rank Test"),
              ("error", .str ("Test failed: " ++ e))], st)
    | .ok wp =>
        let n : ℚ := non_zero_diffs.length
        let effect_size : Option ℚ :=
          if non_zero_diffs.length > 10 then
            some (|(wp.1 - n * (n + 1) / 4) /
                    P.sqrt (n * (n + 1) * (2 * n + 1) / 24)| / P.sqrt n)
          else none
        let results : RRec :=
          [("test_name", .str "One-Sample Wilcoxon Signed-Rank Test"),
           ("statistic", .num wp.1),
           ("p_value", .num wp.2),
           ("n_observations", .num n),
           ("sample_median", .num (npMedian data)),
           ("hypothesized_median", .num hypothesized_median),
           ("median_difference", .num (npMedian differences)),
           ("interpretation", mkInterpretation wp.2 alpha)]
        let results :=
          match effect_size with
          | some e => results ++ [("effect_size", .num e)]
          | none => results
        (.ok results, st)

/-- ChiSquareTests.chi_square_goodness_of_fit
(src/tests/chi_square_tests.py, lines 16-106): observed frequencies are
validated and truncated to ints; an omitted expected list defaults to
the uniform distribution total/k per category. -/
def chi_square_goodness_of_fit (P : SciPy) (observed : List ℚ)
    (expected : Option (List ℚ)) (alpha : ℚ) (st : Console) :
    Except String RRec × Console :=
  if !validate_categorical_data observed then
    (.error "Observed data must be non-negative integers (frequencies)", st)
  else
    let observedInt := observed.map pyInt
    let expectedResult : Except String (List ℚ) :=
      match expected with
      | none =>
          .ok (List.replicate observedInt.length
                ((observedInt.sum : ℚ) / (observedInt.length : ℚ)))
      | some e =>
          if e.length ≠ observed.length then
            .error "Observed and expected must have the same length"
          else if !validate_categorical_data e then
            .error "Expected data must be non-negative numbers"
          else .ok e
    match expectedResult with
    | .error msg => (.error msg, st)
    | .ok expectedL =>
        let hyp := get_hypothesis_input st
        let st := hyp.2
        let warnings : List String :=
          if expectedL.any (fun e => decide (e < 5)) then
            ["Some expected frequencies < 5. Results may be unreliable."]
          else []
        let warnings :=
          if observedInt.sum < 30 then
            warnings ++ ["Total sample size < 30. Consider exact tests."]
          else warnings
        let st := print_assumption_warnings st warnings
        let obsQ := observedInt.map (fun (i : ℤ) => (i : ℚ))
        match scipy_chisquare P.chi2_sf obsQ expectedL with
        | .error e =>
            (.ok [("test_name", .str "Chi-Square Goodness of Fit Test"),
                  ("error", .str ("Test failed: " ++ e))], st)
        | .ok sp =>
            let statistic := sp.1
            let p_value := sp.2
            let df := observed.length - 1
            let total_observed := observedInt.sum
            let cramers_v :=
              if df > 0 then P.sqrt (statistic / ((total_observed : ℚ) * (df : ℚ)))
              else 0
            let residuals :=
              (obsQ.zip expectedL).map (fun c => (c.1 - c.2) / P.sqrt c.2)
            let results : RRec :=
              [("test_name", .str "Chi-Square Goodness of Fit Test"),
               ("chi2_statistic", .num statistic),
               ("p_value", .num p_value),
               ("degrees_of_freedom", .num (df : ℚ)),
               ("observed_frequencies", .numList obsQ),
               ("expected_frequencies", .numList expectedL),
               ("cramers_v", .num cramers_v),
               ("standardized_residuals", .numList residuals),
               ("interpretation", mkInterpretation p_value alpha)]
            (.ok results, st)

/-- CorrelationTests.spearmans_rank_correlation
(src/tests/correlation_tests.py, lines 16-112): the Fisher z confidence
interval is attached only when the absolute correlation is below 0.999;
otherwise both interval bounds stay None and the key is never added. -/
def spearmans_rank_correlation (P : SciPy) (x_data y_data : List ℚ)
    (alpha : ℚ) (st : Console) : Except String RRec × Console :=
  let v := validate_correlation_data x_data y_data
  if !v.1 then
    (.error (v.2.getD ""), st)
  else
    let hyp := get_hypothesis_input st
    let st := hyp.2
    let warnings : List String :=
      if x_data.length < 10 then
        ["Small sample size. Results may be unreliable."]
      else []
    let x_ties := x_data.length - x_data.dedup.length
    let y_ties := y_data.length - y_data.dedup.length
    let warnings :=
      if (x_ties : ℚ) > (x_data.length : ℚ) * (1 / 10) then
        warnings ++ ["Many ties in X variable. Consider alternative methods."]
      else warnings
    let warnings :=
      if (y_ties : ℚ) > (y_data.length : ℚ) * (1 / 10) then
        warnings ++ ["Many ties in Y variable. Consider alternative methods."]
      else warnings
    let st := print_assumption_warnings st warnings
    match P.spearmanr x_data y_data with
    | .error e =>
        (.ok [("test_name", .str "Spearman\x27s Rank Correlation"),
              ("error", .str ("Test failed: " ++ e))], st)
    | .ok cp =>
        let correlation := cp.1
        let p_value := cp.2
        let n : ℚ := x_data.length
        let ci : Option (ℚ × ℚ) :=
          if |correlation| < 999 / 1000 then
            let z_r := (1 / 2 : ℚ) * P.log ((1 + correlation) / (1 - correlation))
            let se_z := 1 / P.sqrt (n - 3)
            let z_critical := P.norm_ppf (1 - alpha / 2)
            let z_lower := z_r - z_critical * se_z
            let z_upper := z_r + z_critical * se_z
            some ((P.exp (2 * z_lower) - 1) / (P.exp (2 * z_lower) + 1),
                  (P.exp (2 * z_upper) - 1) / (P.exp (2 * z_upper) + 1))
          else none
        let abs_corr := |correlation|
        let strength :=
          if abs_corr < 1 / 10 then "negligible"
          else if abs_corr < 3 / 10 then "weak"
          else if abs_corr < 5 / 10 then "moderate"
          else if abs_corr < 7 / 10 then "strong"
          else "very strong"
        let results : RRec :=
          [("test_name", .str "Spearman\x27s Rank Correlation"),
           ("correlation_coefficient", .num correlation),
           ("p_value", .num p_value),
           ("n_pairs", .num n),
           ("correlation_strength", .str strength),
           ("interpretation", mkInterpretation p_value alpha)]
        let results :=
          match ci with
          | some c => results ++ [("confidence_interval", .pair c.1 c.2)]
          | none => results
        (.ok results, st)

/-- Trivial instantiation of the library interface, used to evaluate the
embedding at concrete inputs in witnesses and counterexamples. -/
def P0 : SciPy where
  ttest_1samp := fun _ _ => (0, 0)
  ttest_rel := fun _ _ => (0, 0)
  ttest_ind := fun _ _ _ => (0, 0)
  levene := fun _ _ => (0, 0)
  t_ppf := fun _ _ => 0
  f_cdf := fun _ _ _ => 0
  f_ppf := fun _ _ _ => 0
  chi2_sf := fun _ _ => 1
  norm_ppf := fun _ => 0
  wilcoxon := fun _ => .ok (0, 0)
  spearmanr := fun _ _ => .ok (0, 0)
  sqrt := fun _ => 0
  log := fun _ => 0
  exp := fun _ => 0

/-- Console state with empty streams. -/
def st0 : Console := ⟨[], [], "", []⟩

/-- Console state whose numeric stdin stream holds the given tokens. -/
def stNum (qs : List ℚ) : Console := ⟨qs, [], "", []⟩

/-- Conclusion of claim C3, stated over arbitrary library routines and
console state: an all-zero one-sample run and an all-zero paired run
both return the two-field error record, and in both entry points a
successful run ranks exactly the non-zero differences while the number
of dropped zero differences is printed as a warning. -/
def C3Concl (P : SciPy) (st : Console) (alpha m : ℚ)
    (dataA d1 d2 data e1 e2 : List ℚ) (W W2 : ℚ) : Prop :=
  let diffs := data.map (fun x => x - m)
  let pdiffs := (e1.zip e2).map (fun p => p.2 - p.1)
  (one_sample_wilcoxon_test P dataA m alpha st).1 =
    .ok [("test_name", .str "One-Sample Wilcoxon Signed-Rank Test"),
         ("error", .str "Cannot perform test - all differences are zero")] ∧
  (wilcoxon_signed_rank_test P d1 (some d2) alpha st).1 =
    .ok [("test_name", .str "Paired-Sample Wilcoxon Signed-Rank Test"),
         ("error", .str "Cannot perform test - all differences are zero")] ∧
  RRec.find (unwrapRec (one_sample_wilcoxon_test P data m alpha st).1) "statistic" =
    some (.num W) ∧
  (s!"Removed {diffs.length - (nonZeroDiffs diffs).length} zero differences.") ∈
    ((one_sample_wilcoxon_test P data m alpha st).2).warningsOut ∧
  RRec.find (unwrapRec (wilcoxon_signed_rank_test P e1 (some e2) alpha st).1) "statistic" =
    some (.num W2) ∧
  (s!"Removed {pdiffs.length - (nonZeroDiffs pdiffs).length} zero differences.") ∈
    ((wilcoxon_signed_rank_test P e1 (some e2) alpha st).2).warningsOut

/-- Conclusion of claim C6: the F statistic is the larger sample
variance over the smaller, hence at least 1, the degrees of freedom
follow the numerator/denominator assignment, the p-value is the
two-tailed F tail and the confidence interval divides the ratio by the
F quantiles at 1 - alpha/2 and alpha/2. -/
def C6Concl (P : SciPy) (data1 data2 : List ℚ) (alpha : ℚ) (st : Console) : Prop :=
  let var1 := npVar1 data1
  let var2 := npVar1 data2
  let fstat := max var1 var2 / min var1 var2
  let df1 : ℚ := if var1 ≥ var2 then (data1.length : ℚ) - 1 else (data2.length : ℚ) - 1
  let df2 : ℚ := if var1 ≥ var2 then (data2.length : ℚ) - 1 else (data1.length : ℚ) - 1
  ∃ r, (f_test P data1 data2 alpha st).1 = .ok r ∧
    r.find "f_statistic" = some (.num fstat) ∧
    1 ≤ fstat ∧
    r.find "df1" = some (.num df1) ∧
    r.find "df2" = some (.num df2) ∧
    r.find "p_value" = some (.num (2 * (1 - P.f_cdf fstat df1 df2))) ∧
    r.find "confidence_interval" = some (.pair
      (fstat / P.f_ppf (1 - alpha / 2) df1 df2)
      (fstat / P.f_ppf (alpha / 2) df1 df2))

/-- Conclusion of claim C7: with the expected list omitted, the
goodness-of-fit record carries the uniform total/k expected
frequencies and k-1 degrees of freedom, and on observed [10,10,10,10]
the statistic is 0, the p-value 1, the degrees of freedom 3 and the
expected frequencies [10,10,10,10]. -/
def C7Concl (P : SciPy) (observed : List ℚ) (alpha : ℚ) (st : Console) : Prop :=
  (∃ r, (chi_square_goodness_of_fit P observed none alpha st).1 = .ok r ∧
    r.find "expected_frequencies" =
      some (.numList (List.replicate (observed.map pyInt).length
        (((observed.map pyInt).sum : ℚ) / ((observed.map pyInt).length : ℚ)))) ∧
    r.find "degrees_of_freedom" = some (.num ((observed.length - 1 : ℕ) : ℚ))) ∧
  (∃ r, (chi_square_goodness_of_fit P [10, 10, 10, 10] none alpha st).1 = .ok r ∧
    r.find "chi2_statistic" = some (.num 0) ∧
    r.find "p_value" = some (.num 1) ∧
    r.find "degrees_of_freedom" = some (.num 3) ∧
    r.find "expected_frequencies" = some (.numList [10, 10, 10, 10]))

/-- Conclusion of claim C8: the Spearman record carries the Fisher-z
confidence interval exactly when the absolute correlation is below
0.999 and omits the key otherwise. -/
def C8Concl (P : SciPy) (x y : List ℚ) (alpha : ℚ) (st : Console) (rho : ℚ) : Prop :=
  let n : ℚ := x.length
  let z_r := (1 / 2 : ℚ) * P.log ((1 + rho) / (1 - rho))
  let se_z := 1 / P.sqrt (n - 3)
  let z_critical := P.norm_ppf (1 - alpha / 2)
  let z_lower := z_r - z_critical * se_z
  let z_upper := z_r + z_critical * se_z
  ∃ r, (spearmans_rank_correlation P x y alpha st).1 = .ok r ∧
    r.find "confidence_interval" =
      (if |rho| < 999 / 1000 then
        some (.pair ((P.exp (2 * z_lower) - 1) / (P.exp (2 * z_lower) + 1))
                    ((P.exp (2 * z_upper) - 1) / (P.exp (2 * z_upper) + 1)))
      else none)

/-- Conclusion of claim C9: for both Wilcoxon entry points the
effect_size key holds the normal-approximation effect size exactly when
more than 10 non-zero differences remain, and is absent otherwise. -/
def C9Concl (P : SciPy) (st : Console) (alpha m : ℚ)
    (data d1 d2 : List ℚ) (W1 W2 : ℚ) : Prop :=
  let nzd1 := nonZeroDiffs (data.map (fun x => x - m))
  let n1 : ℚ := nzd1.length
  let nzd2 := nonZeroDiffs ((d1.zip d2).map (fun p => p.2 - p.1))
  let n2 : ℚ := nzd2.length
  (RRec.find (unwrapRec (one_sample_wilcoxon_test P data m alpha st).1) "effect_size" =
    (if nzd1.length > 10 then
      some (.num (|(W1 - n1 * (n1 + 1) / 4) / P.sqrt (n1 * (n1 + 1) * (2 * n1 + 1) / 24)| /
        P.sqrt n1))
    else none)) ∧
  (RRec.find (unwrapRec (wilcoxon_signed_rank_test P d1 (some d2) alpha st).1) "effect_size" =
    (if nzd2.length > 10 then
      some (.num (|(W2 - n2 * (n2 + 1) / 4) / P.sqrt (n2 * (n2 + 1) * (2 * n2 + 1) / 24)| /
        P.sqrt n2))
    else none))

/-- Conclusion of claim C10: across the four suites the interpretation
field of a successful record is exactly the comparison of the p-value of
that record against alpha, and the comparison is strict. -/
def C10Concl (P : SciPy) (data d1 d2 obs x y : List ℚ) (mu alpha pvW pvS : ℚ)
    (st1 st2 st3 st4 : Console) : Prop :=
  RRec.find (unwrapRec (students_t_test P data mu alpha st1).1) "interpretation" =
    some (mkInterpretation (P.ttest_1samp data mu).2 alpha) ∧
  RRec.find (unwrapRec (wilcoxon_signed_rank_test P d1 (some d2) alpha st2).1)
      "interpretation" = some (mkInterpretation pvW alpha) ∧
  (let obsQ := (obs.map pyInt).map (fun (i : ℤ) => (i : ℚ))
   let expectedL := List.replicate (obs.map pyInt).length
     (((obs.map pyInt).sum : ℚ) / ((obs.map pyInt).length : ℚ))
   RRec.find (unwrapRec (chi_square_goodness_of_fit P obs none alpha st3).1)
      "interpretation" =
    some (mkInterpretation
      (P.chi2_sf (((obsQ.zip expectedL).map (fun c => (c.1 - c.2) ^ 2 / c.2)).sum)
        ((obsQ.length : ℚ) - 1)) alpha)) ∧
  RRec.find (unwrapRec (spearmans_rank_correlation P x y alpha st4).1)
      "interpretation" = some (mkInterpretation pvS alpha) ∧
  (∀ p a : ℚ, (mkInterpretation p a = RVal.interp true a ↔ p < a)) ∧
  (∀ a : ℚ, mkInterpretation a a = RVal.interp false a)

/-- Sums of integer lists commute with the cast into the rationals. -/
theorem listCastSum (l : List ℤ) :
    ((l.map (fun (i : ℤ) => (i : ℚ))).sum) = (l.sum : ℚ) :=
  (Int.cast_list_sum l).symm

/-- A list of n copies of t/n sums to t when n is positive. -/
theorem sumReplicateDiv (n : ℕ) (t : ℚ) (hn : n ≠ 0) :
    (List.replicate n (t / (n : ℚ))).sum = t := by
  rw [List.sum_replicate, nsmul_eq_mul, mul_div_cancel₀]
  exact Nat.cast_ne_zero.mpr hn

/-- C1: with the default equal_var = true argument the independent
t-test runs the Levene test first; when the Levene p-value exceeds 0.05
the pooled Student branch is taken, recording equal_variances_assumed =
true, degrees of freedom n1+n2-2 and the library statistic for the
pooled call, and otherwise the Welch branch is taken, recording
equal_variances_assumed = false, the Welch-Satterthwaite degrees of
freedom and the library statistic for the unpooled call. -/
theorem c1_independent_t_levene_auto (P : SciPy) (data1 data2 : List ℚ)
    (alpha : ℚ) (st : Console) :
    ∃ r, (independent_t_test P data1 data2 alpha true st).1 = .ok r ∧
      r.find "equal_variances_assumed" =
        some (.bool (decide ((P.levene data1 data2).2 > 5 / 100))) ∧
      r.find "statistic" =
        some (.num (P.ttest_ind data1 data2
          (decide ((P.levene data1 data2).2 > 5 / 100))).1) ∧
      r.find "degrees_of_freedom" =
        some (.num (if (P.levene data1 data2).2 > 5 / 100 then
            (data1.length : ℚ) + (data2.length : ℚ) - 2
          else
            ((P.sqrt (npVar1 data1) / P.sqrt (data1.length : ℚ)) ^ 2 +
             (P.sqrt (npVar1 data2) / P.sqrt (data2.length : ℚ)) ^ 2) ^ 2 /
            ((P.sqrt (npVar1 data1) / P.sqrt (data1.length : ℚ)) ^ 4 /
               ((data1.length : ℚ) - 1) +
             (P.sqrt (npVar1 data2) / P.sqrt (data2.length : ℚ)) ^ 4 /
               ((data2.length : ℚ) - 1)))) := by
  by_cases hp : (P.levene data1 data2).2 > 5 / 100
  · simp [independent_t_test, RRec.find, hp]
  · simp [independent_t_test, RRec.find, hp]

/-- C2 counterexample: the one-sample t-test is not a pure function of
its explicit arguments; with population_mean = 0.0 it reads the
hypothesized mean from the console, so identical samples and
significance levels with different console states yield different
Result Records. -/
theorem c2_students_t_console_dependent :
    (students_t_test P0 [1, 2, 3] 0 (5 / 100) (stNum [5])).1 ≠
    (students_t_test P0 [1, 2, 3] 0 (5 / 100) (stNum [7])).1 := by
  norm_num [students_t_test, get_hypothesis_input, popStr, popNum,
    print_assumption_warnings, validate_minimum_sample_size,
    validate_normality_assumption, npMean, npVar1, npVar0,
    mkInterpretation, stNum, P0, st0]

/-- C2 amended: the computation is deterministic and the Result Record
depends only on the fully resolved arguments, for the independent t-test
unconditionally and for the one-sample t-test whenever the population
mean argument is nonzero; the console interaction (prompt consumption,
warning printing, display-name mutation) never reaches the record in
those cases. -/
theorem c2_record_noninterference (P : SciPy) (data d1 d2 : List ℚ)
    (mu alpha : ℚ) (ev : Bool) (st st' : Console) (hmu : mu ≠ 0) :
    (students_t_test P data mu alpha st).1 =
      (students_t_test P data mu alpha st').1 ∧
    (independent_t_test P d1 d2 alpha ev st).1 =
      (independent_t_test P d1 d2 alpha ev st').1 := by
  constructor
  · simp [students_t_test, hmu]
  · simp [independent_t_test]

/-- C2 amended, witness at concrete inputs. -/
theorem c2_record_noninterference_witness :
    (students_t_test P0 [1, 2, 3] 1 (5 / 100) (stNum [5])).1 =
      (students_t_test P0 [1, 2, 3] 1 (5 / 100) (stNum [7])).1 ∧
    (independent_t_test P0 [1] [2] (5 / 100) true (stNum [5])).1 =
      (independent_t_test P0 [1] [2] (5 / 100) true (stNum [7])).1 :=
  c2_record_noninterference P0 [1, 2, 3] [1] [2] 1 (5 / 100) true
    (stNum [5]) (stNum [7]) (by norm_num)

/-- C3: both Wilcoxon signed-rank entry points drop zero differences
before ranking (the rank statistic is invoked on the filtered list in
one-sample and in paired mode alike), record the dropped count as a
warning in both modes, and on an all-zero difference list return
(rather than raise) a Result Record holding exactly test_name and
error. -/
theorem c3_wilcoxon_zero_diff_handling (P : SciPy) (st : Console) (alpha m : ℚ)
    (dataA d1 d2 data e1 e2 : List ℚ) (W pv W2 pv2 : ℚ)
    (hA : ∀ x ∈ dataA, x - m = 0)
    (hlen : d1.length = d2.length)
    (hB : ∀ p ∈ d1.zip d2, p.2 - p.1 = 0)
    (hw : P.wilcoxon (nonZeroDiffs (data.map (fun x => x - m))) = .ok (W, pv))
    (hnz : nonZeroDiffs (data.map (fun x => x - m)) ≠ [])
    (hdrop : (nonZeroDiffs (data.map (fun x => x - m))).length <
      (data.map (fun x => x - m)).length)
    (hlenE : e1.length = e2.length)
    (hwE : P.wilcoxon (nonZeroDiffs ((e1.zip e2).map (fun p => p.2 - p.1))) =
      .ok (W2, pv2))
    (hnzE : nonZeroDiffs ((e1.zip e2).map (fun p => p.2 - p.1)) ≠ [])
    (hdropE : (nonZeroDiffs ((e1.zip e2).map (fun p => p.2 - p.1))).length <
      ((e1.zip e2).map (fun p => p.2 - p.1)).length) :
    C3Concl P st alpha m dataA d1 d2 data e1 e2 W W2 := by
  have hfilA : nonZeroDiffs (dataA.map (fun x => x - m)) = [] := by
    rw [nonZeroDiffs, List.filter_eq_nil_iff]
    intro a ha
    simp only [List.mem_map] at ha
    obtain ⟨x, hx, rfl⟩ := ha
    simpa using hA x hx
  have hfilB : nonZeroDiffs ((d1.zip d2).map (fun p => p.2 - p.1)) = [] := by
    rw [nonZeroDiffs, List.filter_eq_nil_iff]
    intro a ha
    simp only [List.mem_map] at ha
    obtain ⟨x, hx, rfl⟩ := ha
    simpa using hB x hx
  have hlnz : (nonZeroDiffs (data.map (fun x => x - m))).length ≠ 0 := by
    simpa [List.length_eq_zero] using hnz
  have hdrop2 : (nonZeroDiffs (data.map (fun x => x - m))).length < data.length := by
    simpa using hdrop
  have hlnzE : (nonZeroDiffs ((e1.zip e2).map (fun p => p.2 - p.1))).length ≠ 0 := by
    simpa [List.length_eq_zero] using hnzE
  have hdropE2 : (nonZeroDiffs ((e1.zip e2).map (fun p => p.2 - p.1))).length <
      e2.length := by
    simpa [hlenE] using hdropE
  refine ⟨?_, ?_, ?_, ?_, ?_, ?_⟩
  · simp [one_sample_wilcoxon_test, hfilA]
  · simp [wilcoxon_signed_rank_test, wilcoxonCommon, validate_equal_sample_sizes,
      hlen, hfilB]
  · simp only [one_sample_wilcoxon_test, hw]
    rw [if_neg hlnz]
    split <;> simp [RRec.find, unwrapRec]
  · simp [one_sample_wilcoxon_test, print_assumption_warnings, hdrop2, hlnz, hw]
  · by_cases h10 : (nonZeroDiffs ((e1.zip e2).map (fun p => p.2 - p.1))).length > 10
    · simp only [wilcoxon_signed_rank_test, wilcoxonCommon, validate_equal_sample_sizes,
        hlenE, hwE]
      rw [if_neg hlnzE]
      simp [h10, RRec.find, unwrapRec, hlenE]
    · simp only [wilcoxon_signed_rank_test, wilcoxonCommon, validate_equal_sample_sizes,
        hlenE, hwE]
      rw [if_neg hlnzE]
      simp [h10, RRec.find, unwrapRec, hlenE]
  · simp [wilcoxon_signed_rank_test, wilcoxonCommon, validate_equal_sample_sizes,
      print_assumption_warnings, hdropE2, hlnzE, hwE, hlenE]

/-- C3 witness at concrete inputs, covering the one-sample dropping run
and a paired run that drops one zero difference. -/
theorem c3_wilcoxon_zero_diff_handling_witness :
    C3Concl P0 st0 (5 / 100) 1 [1, 1] [3, 4] [3, 4] [1, 2, 3] [1, 2, 3] [1, 3, 5] 0 0 :=
  c3_wilcoxon_zero_diff_handling P0 st0 (5 / 100) 1
    [1, 1] [3, 4] [3, 4] [1, 2, 3] [1, 2, 3] [1, 3, 5] 0 0 0 0
    (by norm_num) (by norm_num) (by norm_num [List.zip])
    (by norm_num [nonZeroDiffs, P0]) (by norm_num [nonZeroDiffs, List.cons_ne_nil])
    (by norm_num [nonZeroDiffs])
    (by norm_num) (by norm_num [nonZeroDiffs, P0, List.zip])
    (by norm_num [nonZeroDiffs, List.cons_ne_nil, List.zip])
    (by norm_num [nonZeroDiffs, List.zip])

/-- C4: on unequal sample lengths the paired t-test raises the
precondition ValueError before consuming any console input and
produces no record; the samples are never truncated. -/
theorem c4_paired_t_unequal_lengths (P : SciPy) (data1 data2 : List ℚ)
    (alpha : ℚ) (st : Console) (h : data1.length ≠ data2.length) :
    paired_t_test P data1 data2 alpha st =
      (.error "Paired t-test requires equal sample sizes",
       { st with printName := "Paired Samples t-test" }) := by
  simp [paired_t_test, validate_equal_sample_sizes, h]

/-- C4 witness at concrete inputs. -/
theorem c4_paired_t_unequal_lengths_witness :
    paired_t_test P0 [1] [] (5 / 100) st0 =
      (.error "Paired t-test requires equal sample sizes",
       { st0 with printName := "Paired Samples t-test" }) :=
  c4_paired_t_unequal_lengths P0 [1] [] (5 / 100) st0 (by norm_num)

/-- C5: the source one-sample t-test performs no minimum sample size
check; on a single observation it still returns a numeric Result Record
and signals no InsufficientData failure.  In Python the ddof=1 standard
deviation of one point is NaN, which propagates into the record; in
this rational embedding the guarded division yields 0, and either way a
full numeric record is produced instead of an error. -/
theorem c5_students_t_single_obs_numeric_record :
    (students_t_test P0 [5] 10 (5 / 100) st0).1 =
      .ok [("test_name", .str "One-Sample Student\x27s t-test"),
           ("statistic", .num 0),
           ("p_value", .num 0),
           ("degrees_of_freedom", .num 0),
           ("sample_mean", .num 5),
           ("hypothesized_mean", .num 10),
           ("effect_size", .num 0),
           ("confidence_interval", .pair 5 5),
           ("interpretation", .interp true (5 / 100))] := by
  norm_num [students_t_test, get_hypothesis_input, popStr, popNum,
    print_assumption_warnings, validate_minimum_sample_size,
    validate_normality_assumption, npMean, npVar1, npVar0,
    mkInterpretation, stNum, P0, st0]

/-- C6: for samples with positive sample variances the F-test statistic
is the larger variance over the smaller, hence at least one, with the
degrees of freedom matched to the numerator and denominator groups, the
two-tailed F-CDF p-value and the quantile-based confidence interval. -/
theorem c6_f_test_ratio_df_ci (P : SciPy) (data1 data2 : List ℚ)
    (alpha : ℚ) (st : Console)
    (h1 : 0 < npVar1 data1) (h2 : 0 < npVar1 data2) :
    C6Concl P data1 data2 alpha st := by
  unfold C6Concl
  by_cases hge : npVar1 data1 ≥ npVar1 data2
  · have hmax : max (npVar1 data1) (npVar1 data2) = npVar1 data1 := max_eq_left hge
    have hmin : min (npVar1 data1) (npVar1 data2) = npVar1 data2 := min_eq_right hge
    refine ⟨_, rfl, ?_, ?_, ?_, ?_, ?_, ?_⟩ <;>
      simp [RRec.find, hge, hmax, hmin]
    exact (one_le_div h2).mpr hge
  · have hlt := lt_of_not_ge hge
    have hmax : max (npVar1 data1) (npVar1 data2) = npVar1 data2 := max_eq_right hlt.le
    have hmin : min (npVar1 data1) (npVar1 data2) = npVar1 data1 := min_eq_left hlt.le
    refine ⟨_, rfl, ?_, ?_, ?_, ?_, ?_, ?_⟩ <;>
      simp [RRec.find, hge, hmax, hmin]
    exact (one_le_div h1).mpr hlt.le

/-- C6 witness at concrete inputs. -/
theorem c6_f_test_ratio_df_ci_witness : C6Concl P0 [0, 2] [0, 1] (5 / 100) st0 :=
  c6_f_test_ratio_df_ci P0 [0, 2] [0, 1] (5 / 100) st0
    (by norm_num [npVar1, npMean]) (by norm_num [npVar1, npMean])

/-- C7: when the expected frequencies are omitted the goodness-of-fit
test defaults them to the uniform distribution total/k and reports k-1
degrees of freedom; on observed [10,10,10,10] the expected list is
[10,10,10,10], the statistic 0, the p-value 1 and the degrees of
freedom 3.  The p-value conclusion assumes only that the abstract
chi-square tail gives probability 1 at statistic 0 on 3 degrees of
freedom. -/
theorem c7_chi_square_uniform_default (P : SciPy) (observed : List ℚ)
    (alpha : ℚ) (st : Console)
    (hval : validate_categorical_data observed = true)
    (hsf : P.chi2_sf 0 3 = 1) :
    C7Concl P observed alpha st := by
  constructor
  · have hne : observed ≠ [] := by
      intro h
      rw [h] at hval
      simp [validate_categorical_data] at hval
    have hk : (observed.map pyInt).length ≠ 0 := by
      simpa [List.length_eq_zero] using hne
    have hsum : (((observed.map pyInt).map (fun (i : ℤ) => (i : ℚ))).sum) =
        (List.replicate (observed.map pyInt).length
          (((observed.map pyInt).sum : ℚ) / ((observed.map pyInt).length : ℚ))).sum := by
      rw [listCastSum, sumReplicateDiv _ _ hk]
    simp only [chi_square_goodness_of_fit, hval, Bool.not_true, scipy_chisquare]
    rw [if_neg (by simp)]
    rw [if_neg (not_ne_iff.mpr hsum)]
    refine ⟨_, rfl, ?_, ?_⟩ <;> simp [RRec.find]
  · simp only [chi_square_goodness_of_fit, scipy_chisquare]
    norm_num [validate_categorical_data, pyInt, RRec.find, List.replicate,
      get_hypothesis_input, popStr, print_assumption_warnings, hsf]
    simp

/-- C7 witness at concrete inputs. -/
theorem c7_chi_square_uniform_default_witness :
    C7Concl P0 [10, 10, 10, 10] (5 / 100) st0 :=
  c7_chi_square_uniform_default P0 [10, 10, 10, 10] (5 / 100) st0
    (by norm_num [validate_categorical_data, pyInt]) (by rfl)

/-- C8: for valid correlation input the Spearman record carries the
Fisher-z confidence interval exactly when the absolute correlation is
below 0.999, and omits the key (rather than storing zero) otherwise. -/
theorem c8_spearman_fisher_ci_presence (P : SciPy) (x y : List ℚ)
    (alpha : ℚ) (st : Console) (rho pv : ℚ)
    (hv : (validate_correlation_data x y).1 = true)
    (hsp : P.spearmanr x y = .ok (rho, pv)) :
    C8Concl P x y alpha st rho := by
  unfold C8Concl
  by_cases hci : |rho| < 999 / 1000
  · simp [spearmans_rank_correlation, hv, hsp, hci, RRec.find]
  · simp [spearmans_rank_correlation, hv, hsp, hci, RRec.find]

/-- C8 witness at concrete inputs. -/
theorem c8_spearman_fisher_ci_presence_witness :
    C8Concl P0 [1, 2, 3] [1, 2, 4] (5 / 100) st0 0 :=
  c8_spearman_fisher_ci_presence P0 [1, 2, 3] [1, 2, 4] (5 / 100) st0 0 0
    (by norm_num [validate_correlation_data]) (by rfl)

/-- C9: in both Wilcoxon entry points, when the rank statistic succeeds
the effect_size key equals the absolute normal-approximation Z over the
square root of n exactly when more than 10 non-zero differences remain,
and the key is absent from the record otherwise. -/
theorem c9_wilcoxon_effect_size_threshold (P : SciPy) (st : Console) (alpha m : ℚ)
    (data d1 d2 : List ℚ) (W1 pv1 W2 pv2 : ℚ)
    (hw1 : P.wilcoxon (nonZeroDiffs (data.map (fun x => x - m))) = .ok (W1, pv1))
    (hlen : d1.length = d2.length)
    (hw2 : P.wilcoxon (nonZeroDiffs ((d1.zip d2).map (fun p => p.2 - p.1))) =
      .ok (W2, pv2)) :
    C9Concl P st alpha m data d1 d2 W1 W2 := by
  constructor
  · by_cases hz : (nonZeroDiffs (data.map (fun x => x - m))).length = 0
    · simp [one_sample_wilcoxon_test, hz, RRec.find, unwrapRec]
    · simp only [one_sample_wilcoxon_test, hw1]
      rw [if_neg hz]
      by_cases h10 : (nonZeroDiffs (data.map (fun x => x - m))).length > 10
      · simp [h10, RRec.find, unwrapRec]
      · simp [h10, RRec.find, unwrapRec]
  · by_cases hz : (nonZeroDiffs ((d1.zip d2).map (fun p => p.2 - p.1))).length = 0
    · simp [wilcoxon_signed_rank_test, wilcoxonCommon, validate_equal_sample_sizes,
        hlen, hz, RRec.find, unwrapRec]
    · simp only [wilcoxon_signed_rank_test, wilcoxonCommon, validate_equal_sample_sizes,
        hlen, hw2]
      rw [if_neg hz]
      by_cases h10 : (nonZeroDiffs ((d1.zip d2).map (fun p => p.2 - p.1))).length > 10
      · simp [h10, RRec.find, unwrapRec, hlen]
      · simp [h10, RRec.find, unwrapRec, hlen]

/-- C9 witness at concrete inputs, one run with 11 non-zero differences
and one with 2. -/
theorem c9_wilcoxon_effect_size_threshold_witness :
    C9Concl P0 st0 (5 / 100) 1
      [1, 2, 3, 4, 5, 6, 7, 8, 9, 10, 11, 12] [3, 4] [5, 6] 0 0 :=
  c9_wilcoxon_effect_size_threshold P0 st0 (5 / 100) 1
    [1, 2, 3, 4, 5, 6, 7, 8, 9, 10, 11, 12] [3, 4] [5, 6]
    0 0 0 0 (by rfl) (by norm_num) (by rfl)

/-- C10: every successful record of the four suites stores as its
interpretation the strict comparison of its p-value against alpha;
rejection is recorded exactly when p_value < alpha, and a p-value equal
to alpha yields a failure to reject. -/
theorem c10_interpretation_strict_alpha (P : SciPy) (alpha : ℚ)
    (data : List ℚ) (mu : ℚ) (st1 : Console) (hmu : mu ≠ 0)
    (d1 d2 : List ℚ) (st2 : Console) (WW pvW : ℚ)
    (hlen : d1.length = d2.length)
    (hnzW : nonZeroDiffs ((d1.zip d2).map (fun p => p.2 - p.1)) ≠ [])
    (hwW : P.wilcoxon (nonZeroDiffs ((d1.zip d2).map (fun p => p.2 - p.1))) =
      .ok (WW, pvW))
    (obs : List ℚ) (st3 : Console) (hval : validate_categorical_data obs = true)
    (x y : List ℚ) (st4 : Console) (rho pvS : ℚ)
    (hvS : (validate_correlation_data x y).1 = true)
    (hspS : P.spearmanr x y = .ok (rho, pvS)) :
    C10Concl P data d1 d2 obs x y mu alpha pvW pvS st1 st2 st3 st4 := by
  have hlnz : (nonZeroDiffs ((d1.zip d2).map (fun p => p.2 - p.1))).length ≠ 0 := by
    simpa [List.length_eq_zero] using hnzW
  refine ⟨?_, ?_, ?_, ?_, ?_, ?_⟩
  · simp [students_t_test, hmu, RRec.find, unwrapRec]
  · by_cases h10 : (nonZeroDiffs ((d1.zip d2).map (fun p => p.2 - p.1))).length > 10
    · simp only [wilcoxon_signed_rank_test, wilcoxonCommon, validate_equal_sample_sizes,
        hlen, hwW]
      rw [if_neg hlnz]
      simp [h10, RRec.find, unwrapRec, hlen]
    · simp only [wilcoxon_signed_rank_test, wilcoxonCommon, validate_equal_sample_sizes,
        hlen, hwW]
      rw [if_neg hlnz]
      simp [h10, RRec.find, unwrapRec, hlen]
  · have hne : obs ≠ [] := by
      intro h
      rw [h] at hval
      simp [validate_categorical_data] at hval
    have hk : (obs.map pyInt).length ≠ 0 := by
      simpa [List.length_eq_zero] using hne
    have hsum : (((obs.map pyInt).map (fun (i : ℤ) => (i : ℚ))).sum) =
        (List.replicate (obs.map pyInt).length
          (((obs.map pyInt).sum : ℚ) / ((obs.map pyInt).length : ℚ))).sum := by
      rw [listCastSum, sumReplicateDiv _ _ hk]
    simp only [chi_square_goodness_of_fit, hval, Bool.not_true, scipy_chisquare]
    rw [if_neg (by simp)]
    rw [if_neg (not_ne_iff.mpr hsum)]
    simp [RRec.find, unwrapRec]
  · simp only [spearmans_rank_correlation, hvS, hspS]
    rw [if_neg (by simp)]
    split <;> simp [RRec.find, unwrapRec]
  · intro p a
    simp [mkInterpretation, decide_eq_true_eq]
  · intro a
    simp [mkInterpretation, decide_eq_false_iff_not, lt_self_iff_false]

/-- C10 witness at concrete inputs for all four suites. -/
theorem c10_interpretation_strict_alpha_witness :
    C10Concl P0 [1, 2, 3] [3, 4] [5, 6] [10, 10, 10, 10] [1, 2, 3] [1, 2, 4]
      1 (5 / 100) 0 0 st0 st0 st0 st0 :=
  c10_interpretation_strict_alpha P0 (5 / 100) [1, 2, 3] 1 st0 (by norm_num)
    [3, 4] [5, 6] st0 0 0 (by norm_num)
    (by norm_num [nonZeroDiffs, List.cons_ne_nil, List.zip]) (by rfl)
    [10, 10, 10, 10] st0 (by norm_num [validate_categorical_data, pyInt])
    [1, 2, 3] [1, 2, 4] st0 0 0 (by norm_num [validate_correlation_data]) (by rfl)
